import Mathlib

/-!
Verification of the primetrade order-management core.

The repository is a client-side order layer over a futures exchange: input
validators (`validators.py`), decimal precision formatting, and a bot facade
(`bot.py`) that validates, formats and submits orders through an exchange
collaborator.  This file is a shallow embedding of that core:

* Numeric order inputs are modelled as exact decimal numerals
  (`Dec`: an integer mantissa `man` with a decimal scale `exp`,
  denoting `man / 10 ^ exp`).  This mirrors the source, which converts every
  value through `Decimal(str(value))` and performs exact decimal arithmetic.
* The exchange collaborator (network) is an explicit environment `Env` of
  response functions; each facade operation returns the list of exchange
  calls it issued together with its result, so "no network call is made"
  is a statement about the returned call trace.
* Python exceptions become `Except` results.
-/

namespace PrimeTrade

/-- Exact decimal numeral: denotes `man / 10 ^ exp`.  Python's
`Decimal(str(value))` for the decimal literals the program manipulates. -/
structure Dec where
  man : ℤ
  exp : ℕ
deriving DecidableEq

/-- Rational value denoted by a decimal numeral. -/
def Dec.toRat (d : Dec) : ℚ := (d.man : ℚ) / 10 ^ d.exp

/-- Integer division truncating toward zero (Python `decimal` ROUND_DOWN). -/
def tdiv0 (m D : ℤ) : ℤ := if 0 ≤ m then Int.ediv m D else -(Int.ediv (-m) D)

/-- Integer division rounding to nearest, ties to even quotient
(Python `decimal` default rounding ROUND_HALF_EVEN), for positive `D`. -/
def roundHalfEvenDiv (m D : ℤ) : ℤ :=
  if 2 * Int.emod m D < D then Int.ediv m D
  else if D < 2 * Int.emod m D then Int.ediv m D + 1
  else if Int.emod (Int.ediv m D) 2 = 0 then Int.ediv m D else Int.ediv m D + 1

/-- Mantissa of `Decimal.quantize` to `p` decimal places with ROUND_DOWN:
the result denotes `quantDown p d / 10 ^ p`. -/
def quantDown (p : ℕ) (d : Dec) : ℤ :=
  if d.exp ≤ p then d.man * 10 ^ (p - d.exp)
  else tdiv0 d.man (10 ^ (d.exp - p))

/-- Mantissa of `Decimal.quantize` to `p` decimal places with the default
context rounding ROUND_HALF_EVEN. -/
def quantHalfEven (p : ℕ) (d : Dec) : ℤ :=
  if d.exp ≤ p then d.man * 10 ^ (p - d.exp)
  else roundHalfEvenDiv d.man (10 ^ (d.exp - p))

/-- Decimal digits of a natural number, most significant first
(fuel-structured recursion). -/
def natDigitsAux : ℕ → ℕ → List Char → List Char
  | 0, _, acc => acc
  | fuel + 1, n, acc =>
    if n < 10 then Char.ofNat (48 + n) :: acc
    else natDigitsAux fuel (n / 10) (Char.ofNat (48 + n % 10) :: acc)

/-- Decimal string of a natural number. -/
def natStr (n : ℕ) : String := String.mk (natDigitsAux (n + 1) n [])

/-- Left-pad a digit string with zeroes to length `p`. -/
def padZeroes (p : ℕ) (s : String) : String :=
  String.mk (List.replicate (p - s.data.length) '0') ++ s

/-- `str` of a `Decimal` with mantissa `m` and exponent `-p`: sign, integer
part, and (when `p > 0`) a point followed by exactly `p` fraction digits. -/
def renderDecimal (m : ℤ) (p : ℕ) : String :=
  (if m < 0 then "-" else "") ++
    (if p = 0 then natStr m.natAbs
     else natStr (m.natAbs / 10 ^ p) ++ "." ++ padZeroes p (natStr (m.natAbs % 10 ^ p)))

namespace Validators

/-!
Embedding of `validators.py`.  For `validate_symbol` a Python string is
modelled as its list of Unicode code points (`List ℕ`), so that `strip` and
`upper` are plain arithmetic on code points.
-/

/-- `str.strip` whitespace test on a code point (ASCII whitespace:
space, tab, newline, vertical tab, form feed, carriage return). -/
def isWS (c : ℕ) : Bool :=
  decide (c = 32 ∨ c = 9 ∨ c = 10 ∨ c = 11 ∨ c = 12 ∨ c = 13)

/-- `str.upper` on a single ASCII code point. -/
def upperCp (c : ℕ) : ℕ := if 97 ≤ c ∧ c ≤ 122 then c - 32 else c

/-- `str.strip`: drop whitespace from both ends. -/
def strip (l : List ℕ) : List ℕ :=
  (((l.dropWhile isWS).reverse.dropWhile isWS)).reverse

/-- `str.upper` on a whole string. -/
def upper (l : List ℕ) : List ℕ := l.map upperCp

/-- Code points of `USDT`, `BUSD`, `BTC`, `ETH` — the suffixes accepted by
`validate_symbol`. -/
def symbolSuffixes : List (List ℕ) :=
  [[85, 83, 68, 84], [66, 85, 83, 68], [66, 84, 67], [69, 84, 72]]

/-- `str.endswith((...))`: ends with one of the listed suffixes. -/
def endsWithAny (l : List ℕ) : Bool :=
  symbolSuffixes.any (fun suf => suf.isSuffixOf l)

/-- `validators.validate_symbol`: reject empty, strip+uppercase, reject
length < 5, reject unless it ends in USDT/BUSD/BTC/ETH; return the
normalized symbol. -/
def validate_symbol (symbol : List ℕ) : Except Unit (List ℕ) :=
  if symbol = [] then .error ()
  else
    if (upper (strip symbol)).length < 5 then .error ()
    else
      if endsWithAny (upper (strip symbol)) then .ok (upper (strip symbol))
      else .error ()

/-- A Python float as the validators see it: either NaN or a finite value
(infinities are not needed by any claim and are omitted).  IEEE comparisons
with NaN are always false. -/
inductive PyFloat where
  | nan : PyFloat
  | num : ℚ → PyFloat
deriving DecidableEq

/-- IEEE `<=`: false whenever either side is NaN. -/
def PyFloat.le : PyFloat → PyFloat → Bool
  | .num a, .num b => decide (a ≤ b)
  | _, _ => false

/-- IEEE `<`: false whenever either side is NaN. -/
def PyFloat.lt : PyFloat → PyFloat → Bool
  | .num a, .num b => decide (a < b)
  | _, _ => false

/-- `validators.validate_quantity` (the `float(quantity)` coercion is the
identity on float inputs): reject if `qty <= 0`, reject if `qty < min_qty`,
otherwise return the quantity. -/
def validate_quantity (quantity : PyFloat) (min_qty : PyFloat) :
    Except Unit PyFloat :=
  if quantity.le (.num 0) then .error ()
  else if quantity.lt min_qty then .error ()
  else .ok quantity

/-- `validators.validate_price`: reject if `p <= 0`, otherwise return it. -/
def validate_price (price : PyFloat) : Except Unit PyFloat :=
  if price.le (.num 0) then .error ()
  else .ok price

/-- `validators.format_decimal`: `Decimal(str(value)).quantize` to
`precision` places with the default context rounding (ROUND_HALF_EVEN).
Returned as the exact decimal numeral the produced string denotes. -/
def format_decimal (value : Dec) (precision : ℕ) : Dec :=
  ⟨quantHalfEven precision value, precision⟩

end Validators

namespace Bot

/-!
Embedding of `bot.py` (`BasicBot`).  The exchange client is an explicit
environment of response functions; every operation returns the list of
exchange calls it issued (its call trace) together with its result.
-/

/-- `str.upper` on a Lean `String` (per-character, as Python does). -/
def pyUpperStr (s : String) : String := String.mk (s.data.map Char.toUpper)

/-- Exchange response to an order placement; only the exchange-assigned
order id is inspected by the code under verification. -/
structure OrderRecord where
  orderId : ℕ
deriving DecidableEq

/-- `BinanceAPIException`, identified by its error code. -/
structure ApiError where
  code : ℤ
deriving DecidableEq

/-- Response to a leverage change. -/
structure LeverageResp where
  leverage : ℤ
deriving DecidableEq

/-- The four order types the facade submits. -/
inductive OrderType where
  | market : OrderType
  | limit : OrderType
  | stop : OrderType
  | takeProfit : OrderType
deriving DecidableEq

/-- Parameters of one `futures_create_order` call (formatted values are the
strings the code sends on the wire). -/
structure OrderReq where
  symbol : String
  side : String
  type : OrderType
  quantity : String
  price : Option String
  stopPrice : Option String
  timeInForce : Option String
  reduceOnly : Bool
deriving DecidableEq

/-- One call to the exchange collaborator that affects orders or leverage. -/
inductive ApiCall where
  | createOrder : OrderReq → ApiCall
  | cancelOrder : String → ℕ → ApiCall
  | changeLeverage : String → ℤ → ApiCall
deriving DecidableEq

/-- Errors a facade operation can raise: `ValueError` from local validation,
or a re-raised exchange API error. -/
inductive BotError where
  | valueError : BotError
  | apiError : ApiError → BotError
deriving DecidableEq

/-- The exchange collaborator: per-symbol precision rules plus the response
each kind of call would get. -/
structure Env where
  pricePrecision : ℕ
  quantityPrecision : ℕ
  hasSymbol : String → Bool
  createOrder : OrderReq → Except ApiError OrderRecord
  cancelOrder : String → ℕ → Except ApiError OrderRecord
  changeLeverage : String → ℤ → Except ApiError LeverageResp

/-- `BasicBot._format_quantity`: truncate (ROUND_DOWN) to the symbol's
quantity precision and render the decimal string. -/
def format_quantity (env : Env) (quantity : Dec) : String :=
  renderDecimal (quantDown env.quantityPrecision quantity) env.quantityPrecision

/-- `BasicBot._format_price`: truncate (ROUND_DOWN) to the symbol's price
precision and render the decimal string. -/
def format_price (env : Env) (price : Dec) : String :=
  renderDecimal (quantDown env.pricePrecision price) env.pricePrecision

/-- Decimal numeral produced by `_format_price` before rendering. -/
def format_price_dec (env : Env) (price : Dec) : Dec :=
  ⟨quantDown env.pricePrecision price, env.pricePrecision⟩

/-- `BasicBot._validate_order_params`: check side is BUY/SELL after
uppercasing, quantity positive, price (when given) positive, then that the
symbol resolves to exchange rules.  A decimal numeral is positive exactly
when its mantissa is. -/
def validate_order_params (env : Env) (symbol side : String) (quantity : Dec)
    (price : Option Dec) : Except BotError Unit :=
  if pyUpperStr side ∉ (["BUY", "SELL"] : List String) then .error .valueError
  else if quantity.man ≤ 0 then .error .valueError
  else
    match price with
    | some p =>
      if p.man ≤ 0 then .error .valueError
      else if env.hasSymbol symbol then .ok () else .error .valueError
    | none => if env.hasSymbol symbol then .ok () else .error .valueError

/-- Take-profit leg request built by `place_oco_order`: note `price` and
`stopPrice` are both the formatted take-profit price. -/
def oco_tp_request (env : Env) (symbol side : String) (quantity price : Dec)
    (tif : String) : OrderReq :=
  ⟨symbol, pyUpperStr side, .takeProfit, format_quantity env quantity,
    some (format_price env price), some (format_price env price), some tif, true⟩

/-- Stop-loss leg request built by `place_oco_order`: `price` is the
formatted stop-limit price, `stopPrice` the formatted stop trigger. -/
def oco_sl_request (env : Env) (symbol side : String)
    (quantity stop_price stop_limit_price : Dec) (tif : String) : OrderReq :=
  ⟨symbol, pyUpperStr side, .stop, format_quantity env quantity,
    some (format_price env stop_limit_price), some (format_price env stop_price),
    some tif, true⟩

/-- `BasicBot.place_oco_order`: validate (symbol, side, quantity, TP price),
format all four numerals, submit the take-profit leg then the stop-loss leg;
if the stop-loss leg raises an API error, cancel every already-placed order
(ignoring any failure of the cancellation itself) and re-raise the original
error. -/
def place_oco_order (env : Env) (symbol side : String)
    (quantity price stop_price stop_limit_price : Dec) (tif : String) :
    List ApiCall × Except BotError (List OrderRecord) :=
  match validate_order_params env symbol side quantity (some price) with
  | .error e => ([], .error e)
  | .ok _ =>
    match env.createOrder (oco_tp_request env symbol side quantity price tif) with
    | .error e =>
      ([.createOrder (oco_tp_request env symbol side quantity price tif)],
        .error (.apiError e))
    | .ok tp_order =>
      match env.createOrder
          (oco_sl_request env symbol side quantity stop_price stop_limit_price tif) with
      | .error e =>
        ([.createOrder (oco_tp_request env symbol side quantity price tif),
          .createOrder (oco_sl_request env symbol side quantity stop_price
            stop_limit_price tif),
          .cancelOrder symbol tp_order.orderId],
          .error (.apiError e))
      | .ok sl_order =>
        ([.createOrder (oco_tp_request env symbol side quantity price tif),
          .createOrder (oco_sl_request env symbol side quantity stop_price
            stop_limit_price tif)],
          .ok [tp_order, sl_order])

/-- Request built by `place_take_profit_order` (no `reduceOnly` flag is
passed, so it defaults to false). -/
def tp_request (env : Env) (symbol side : String) (quantity price stop_price : Dec)
    (tif : String) : OrderReq :=
  ⟨symbol, pyUpperStr side, .takeProfit, format_quantity env quantity,
    some (format_price env price), some (format_price env stop_price), some tif, false⟩

/-- `BasicBot.place_take_profit_order`: validate (symbol, side, quantity,
limit price) — the trigger `stop_price` is NOT validated — then format and
submit. -/
def place_take_profit_order (env : Env) (symbol side : String)
    (quantity price stop_price : Dec) (tif : String) :
    List ApiCall × Except BotError OrderRecord :=
  match validate_order_params env symbol side quantity (some price) with
  | .error e => ([], .error e)
  | .ok _ =>
    match env.createOrder (tp_request env symbol side quantity price stop_price tif) with
    | .error e =>
      ([.createOrder (tp_request env symbol side quantity price stop_price tif)],
        .error (.apiError e))
    | .ok o =>
      ([.createOrder (tp_request env symbol side quantity price stop_price tif)], .ok o)

/-- Request built by `place_stop_limit_order`. -/
def sl_request (env : Env) (symbol side : String) (quantity price stop_price : Dec)
    (tif : String) : OrderReq :=
  ⟨symbol, pyUpperStr side, .stop, format_quantity env quantity,
    some (format_price env price), some (format_price env stop_price), some tif, false⟩

/-- `BasicBot.place_stop_limit_order`: validate (symbol, side, quantity,
limit price), additionally reject `stop_price <= 0`, then format and
submit. -/
def place_stop_limit_order (env : Env) (symbol side : String)
    (quantity price stop_price : Dec) (tif : String) :
    List ApiCall × Except BotError OrderRecord :=
  match validate_order_params env symbol side quantity (some price) with
  | .error e => ([], .error e)
  | .ok _ =>
    if stop_price.man ≤ 0 then ([], .error .valueError)
    else
      match env.createOrder (sl_request env symbol side quantity price stop_price tif) with
      | .error e =>
        ([.createOrder (sl_request env symbol side quantity price stop_price tif)],
          .error (.apiError e))
      | .ok o =>
        ([.createOrder (sl_request env symbol side quantity price stop_price tif)], .ok o)

/-- `BasicBot.set_leverage`: reject leverage outside `[1, 125]` before any
exchange call, then call through. -/
def set_leverage (env : Env) (symbol : String) (leverage : ℤ) :
    List ApiCall × Except BotError LeverageResp :=
  if ¬(1 ≤ leverage ∧ leverage ≤ 125) then ([], .error .valueError)
  else
    match env.changeLeverage symbol leverage with
    | .error e => ([.changeLeverage symbol leverage], .error (.apiError e))
    | .ok r => ([.changeLeverage symbol leverage], .ok r)

/-- One entry of the collaborator's position list; `positionAmt` is the
signed position size as the decimal numeral its string field parses to. -/
structure Position where
  symbol : String
  positionAmt : Dec
deriving DecidableEq

/-- `BasicBot.get_positions`: optionally restrict to one symbol, then keep
only the entries whose parsed `positionAmt` is nonzero (a decimal numeral
is nonzero exactly when its mantissa is). -/
def get_positions (positions : List Position) (symbol : Option String) :
    List Position :=
  (match symbol with
    | some s => positions.filter (fun (p : Position) => decide (p.symbol = s))
    | none => positions).filter (fun (p : Position) => decide (p.positionAmt.man ≠ 0))

/-- Concrete exchange for the OCO partial-failure scenario: BTCUSDT with
price precision 2 and quantity precision 3; take-profit placements succeed
with order id 101, every other placement fails with API error -2019, and
cancellation itself also fails (with -1001), so that swallowing of
cancellation failures is observable. -/
def envOco : Env :=
  ⟨2, 3, fun s => s == "BTCUSDT",
    fun req => match req.type with
      | .takeProfit => .ok ⟨101⟩
      | _ => .error ⟨-2019⟩,
    fun _ _ => .error ⟨-1001⟩,
    fun _ _ => .ok ⟨1⟩⟩

/-- Concrete exchange where every call succeeds (order id 7). -/
def envOk : Env :=
  ⟨2, 3, fun s => s == "BTCUSDT",
    fun _ => .ok ⟨7⟩,
    fun _ _ => .ok ⟨7⟩,
    fun _ lev => .ok ⟨lev⟩⟩

end Bot

namespace Validators

/-! ### Facts about strip and upper, toward idempotence of symbol validation -/

theorem isWS_upperCp (c : ℕ) : isWS (upperCp c) = isWS c := by
  unfold upperCp
  split
  · unfold isWS
    rw [decide_eq_decide]
    omega
  · rfl

theorem upperCp_idem (c : ℕ) : upperCp (upperCp c) = upperCp c := by
  by_cases h : 97 ≤ c ∧ c ≤ 122
  · rw [show upperCp c = c - 32 from if_pos h]
    exact if_neg (by omega)
  · rw [show upperCp c = c from if_neg h]
    exact if_neg h

theorem upper_idem (l : List ℕ) : upper (upper l) = upper l := by
  unfold upper
  rw [List.map_map]
  have h : upperCp ∘ upperCp = upperCp := funext upperCp_idem
  rw [h]

theorem dropWhile_head_false {α : Type} (p : α → Bool) (l : List α) (a : α)
    (t : List α) (h : l.dropWhile p = a :: t) : p a = false := by
  induction l with
  | nil => simp [List.dropWhile] at h
  | cons b u ih =>
    rw [List.dropWhile_cons] at h
    by_cases hb : p b = true
    · rw [if_pos hb] at h
      exact ih h
    · rw [if_neg hb] at h
      cases h
      simpa using hb

theorem dropWhile_decomp {α : Type} (p : α → Bool) (l : List α) :
    ∃ t, l = t ++ l.dropWhile p := by
  induction l with
  | nil => exact ⟨[], rfl⟩
  | cons b u ih =>
    rw [List.dropWhile_cons]
    by_cases hb : p b = true
    · obtain ⟨t, ht⟩ := ih
      rw [if_pos hb]
      exact ⟨b :: t, by rw [List.cons_append, ← ht]⟩
    · rw [if_neg hb]
      exact ⟨[], rfl⟩

theorem dropWhile_eq_self {α : Type} (p : α → Bool) (l : List α)
    (h : ∀ a t, l = a :: t → p a = false) : l.dropWhile p = l := by
  cases l with
  | nil => rfl
  | cons a t =>
    rw [List.dropWhile_cons, if_neg]
    simp [h a t rfl]

theorem strip_head (l : List ℕ) (a : ℕ) (t : List ℕ) (h : strip l = a :: t) :
    isWS a = false := by
  obtain ⟨pre, hpre⟩ := dropWhile_decomp isWS (l.dropWhile isWS).reverse
  have hrev : (l.dropWhile isWS).reverse.reverse
      = strip l ++ pre.reverse := by
    rw [show (l.dropWhile isWS).reverse = pre ++ ((l.dropWhile isWS).reverse.dropWhile isWS)
        from hpre]
    rw [List.reverse_append]
    rfl
  rw [List.reverse_reverse] at hrev
  rw [h] at hrev
  exact dropWhile_head_false isWS l a (t ++ pre.reverse) (by rw [hrev, List.cons_append])

theorem strip_last (l : List ℕ) (a : ℕ) (t : List ℕ)
    (h : (strip l).reverse = a :: t) : isWS a = false := by
  unfold strip at h
  rw [List.reverse_reverse] at h
  exact dropWhile_head_false isWS (l.dropWhile isWS).reverse a t h

theorem strip_of_ends (l : List ℕ) (hh : ∀ a t, l = a :: t → isWS a = false)
    (hl : ∀ a t, l.reverse = a :: t → isWS a = false) : strip l = l := by
  unfold strip
  rw [dropWhile_eq_self isWS l hh, dropWhile_eq_self isWS l.reverse hl,
    List.reverse_reverse]

theorem strip_idem (l : List ℕ) : strip (strip l) = strip l :=
  strip_of_ends (strip l) (strip_head l) (strip_last l)

theorem strip_upper_strip (l : List ℕ) :
    strip (upper (strip l)) = upper (strip l) := by
  apply strip_of_ends
  · intro a t h
    cases hs : strip l with
    | nil => rw [hs] at h; simp [upper] at h
    | cons b u =>
      rw [hs] at h
      unfold upper at h
      rw [List.map_cons] at h
      cases h
      rw [isWS_upperCp]
      exact strip_head l b u hs
  · intro a t h
    unfold upper at h
    rw [← List.map_reverse] at h
    cases hs : (strip l).reverse with
    | nil => rw [hs] at h; simp at h
    | cons b u =>
      rw [hs, List.map_cons] at h
      cases h
      rw [isWS_upperCp]
      exact strip_last l b u hs

end Validators

/-! ### Arithmetic facts about decimal quantization -/

theorem toRat_scale (m : ℤ) (e p : ℕ) (hep : e ≤ p) :
    Dec.toRat ⟨m * 10 ^ (p - e), p⟩ = Dec.toRat ⟨m, e⟩ := by
  unfold Dec.toRat
  have h : (10 : ℚ) ^ p = 10 ^ (p - e) * 10 ^ e := by
    rw [← pow_add]
    congr 1
    omega
  have h1 : ((10 : ℚ) ^ (p - e)) ≠ 0 := by positivity
  have h2 : ((10 : ℚ) ^ e) ≠ 0 := by positivity
  rw [h]
  push_cast
  field_simp
  ring

theorem toRat_sub (m q : ℤ) (e p : ℕ) (hpe : p ≤ e) :
    Dec.toRat ⟨m, e⟩ - Dec.toRat ⟨q, p⟩ = ((m - 10 ^ (e - p) * q : ℤ) : ℚ) / 10 ^ e := by
  unfold Dec.toRat
  have h : (10 : ℚ) ^ e = 10 ^ (e - p) * 10 ^ p := by
    rw [← pow_add]
    congr 1
    omega
  have h1 : ((10 : ℚ) ^ (e - p)) ≠ 0 := by positivity
  have h2 : ((10 : ℚ) ^ p) ≠ 0 := by positivity
  rw [h]
  push_cast
  field_simp
  ring

/-- ROUND_DOWN on a positive value is floor division: remainder in `[0, D)`. -/
theorem tdiv0_err (m D : ℤ) (hm : 0 < m) (hD : 0 < D) :
    0 ≤ m - D * tdiv0 m D ∧ m - D * tdiv0 m D < D := by
  unfold tdiv0
  rw [if_pos (le_of_lt hm)]
  have h0 : D * Int.ediv m D + Int.emod m D = m := Int.ediv_add_emod m D
  have h1 : 0 ≤ Int.emod m D := Int.emod_nonneg m (ne_of_gt hD)
  have h2 : Int.emod m D < D := Int.emod_lt_of_pos m hD
  constructor <;> linarith

/-- ROUND_HALF_EVEN division lands within half a divisor of the true value. -/
theorem roundHalfEvenDiv_err (m D : ℤ) (hD : 0 < D) :
    2 * |m - D * roundHalfEvenDiv m D| ≤ D := by
  unfold roundHalfEvenDiv
  have h0 : D * Int.ediv m D + Int.emod m D = m := Int.ediv_add_emod m D
  have h1 : 0 ≤ Int.emod m D := Int.emod_nonneg m (ne_of_gt hD)
  have h2 : Int.emod m D < D := Int.emod_lt_of_pos m hD
  have hq : m - D * Int.ediv m D = Int.emod m D := by linarith
  have hq1 : m - D * (Int.ediv m D + 1) = Int.emod m D - D := by
    have h3 : m - D * (Int.ediv m D + 1) = m - D * Int.ediv m D - D := by ring
    rw [h3, hq]
  split
  · rw [hq, abs_of_nonneg h1]
    linarith
  · split
    · rw [hq1, abs_of_nonpos (by linarith)]
      linarith
    · split
      · rw [hq, abs_of_nonneg h1]
        linarith
      · rw [hq1, abs_of_nonpos (by linarith)]
        linarith

/-- Truncation to `p` places of a positive decimal never rounds up, and is
within one unit in the last place of the true value. -/
theorem quantDown_le (p : ℕ) (d : Dec) (hpos : 0 < d.man) :
    Dec.toRat ⟨quantDown p d, p⟩ ≤ d.toRat ∧
      d.toRat - Dec.toRat ⟨quantDown p d, p⟩ < 1 / 10 ^ p := by
  obtain ⟨m, e⟩ := d
  simp only at hpos
  unfold quantDown
  simp only
  by_cases hep : e ≤ p
  · rw [if_pos hep, toRat_scale m e p hep]
    constructor
    · exact le_refl _
    · rw [sub_self]
      positivity
  · rw [if_neg hep]
    have hpe : p ≤ e := by omega
    have hDpos : (0 : ℤ) < 10 ^ (e - p) := by positivity
    obtain ⟨hs0, hs1⟩ := tdiv0_err m (10 ^ (e - p)) hpos hDpos
    have hsub := toRat_sub m (tdiv0 m (10 ^ (e - p))) e p hpe
    constructor
    · have hnum : (0 : ℚ) ≤ ((m - 10 ^ (e - p) * tdiv0 m (10 ^ (e - p)) : ℤ) : ℚ) := by
        exact_mod_cast hs0
      have hd : (0 : ℚ) < (10 : ℚ) ^ e := by positivity
      have := div_nonneg hnum (le_of_lt hd)
      linarith [hsub]
    · rw [hsub]
      have hd : (0 : ℚ) < (10 : ℚ) ^ e := by positivity
      have hp10 : (0 : ℚ) < (10 : ℚ) ^ p := by positivity
      rw [div_lt_div_iff₀ hd hp10]
      have hnum : ((m - 10 ^ (e - p) * tdiv0 m (10 ^ (e - p)) : ℤ) : ℚ) < (10 : ℚ) ^ (e - p) := by
        exact_mod_cast hs1
      have h10 : (10 : ℚ) ^ e = 10 ^ (e - p) * 10 ^ p := by
        rw [← pow_add]
        congr 1
        omega
      calc ((m - 10 ^ (e - p) * tdiv0 m (10 ^ (e - p)) : ℤ) : ℚ) * 10 ^ p
          < (10 : ℚ) ^ (e - p) * 10 ^ p :=
            mul_lt_mul_of_pos_right hnum hp10
        _ = 1 * (10 : ℚ) ^ e := by rw [h10]; ring

/-- Quantization with ROUND_HALF_EVEN is within half a unit in the last
place of the true value. -/
theorem quantHalfEven_err (p : ℕ) (d : Dec) :
    |Dec.toRat ⟨quantHalfEven p d, p⟩ - d.toRat| ≤ 1 / (2 * 10 ^ p) := by
  obtain ⟨m, e⟩ := d
  unfold quantHalfEven
  simp only
  by_cases hep : e ≤ p
  · rw [if_pos hep, toRat_scale m e p hep, sub_self, abs_zero]
    positivity
  · rw [if_neg hep]
    have hpe : p ≤ e := by omega
    have hDpos : (0 : ℤ) < 10 ^ (e - p) := by positivity
    have herr := roundHalfEvenDiv_err m (10 ^ (e - p)) hDpos
    have hsub := toRat_sub m (roundHalfEvenDiv m (10 ^ (e - p))) e p hpe
    rw [abs_sub_comm, hsub]
    have hd : (0 : ℚ) < (10 : ℚ) ^ e := by positivity
    have hp2 : (0 : ℚ) < 2 * (10 : ℚ) ^ p := by positivity
    rw [abs_div, abs_of_pos hd, div_le_div_iff₀ hd hp2]
    have herrQ :
        2 * |((m - 10 ^ (e - p) * roundHalfEvenDiv m (10 ^ (e - p)) : ℤ) : ℚ)|
          ≤ (10 : ℚ) ^ (e - p) := by
      rw [← Int.cast_abs]
      exact_mod_cast herr
    have h10 : (10 : ℚ) ^ e = 10 ^ (e - p) * 10 ^ p := by
      rw [← pow_add]
      congr 1
      omega
    calc |((m - 10 ^ (e - p) * roundHalfEvenDiv m (10 ^ (e - p)) : ℤ) : ℚ)| * (2 * 10 ^ p)
        = (2 * |((m - 10 ^ (e - p) * roundHalfEvenDiv m (10 ^ (e - p)) : ℤ) : ℚ)|) * 10 ^ p := by
          ring
      _ ≤ (10 : ℚ) ^ (e - p) * 10 ^ p := mul_le_mul_of_nonneg_right herrQ (by positivity)
      _ = 1 * (10 : ℚ) ^ e := by rw [h10]; ring

/-! ### Claims -/

/-- C1: whenever the take-profit leg of an OCO placement succeeds (returning
a record with an order id) and the stop-loss leg fails with an exchange API
error, `place_oco_order` attempts cancellation of the take-profit leg's
returned order id, swallows any failure of that cancellation (the result
does not depend on the cancellation response at all), and raises the
original stop-loss error, never a wrapped cancellation error. -/
theorem c1_oco_rollback (env : Bot.Env) (symbol side : String)
    (quantity price stop_price stop_limit_price : Dec) (tif : String)
    (tp : Bot.OrderRecord) (e : Bot.ApiError)
    (hval : Bot.validate_order_params env symbol side quantity (some price) = .ok ())
    (htp : env.createOrder (Bot.oco_tp_request env symbol side quantity price tif)
      = .ok tp)
    (hsl : env.createOrder
        (Bot.oco_sl_request env symbol side quantity stop_price stop_limit_price tif)
      = .error e) :
    Bot.place_oco_order env symbol side quantity price stop_price stop_limit_price tif =
      ([.createOrder (Bot.oco_tp_request env symbol side quantity price tif),
        .createOrder
          (Bot.oco_sl_request env symbol side quantity stop_price stop_limit_price tif),
        .cancelOrder symbol tp.orderId],
        .error (.apiError e)) := by
  unfold Bot.place_oco_order
  rw [hval, htp, hsl]

/-- C1 witness: the spec's OCO scenario (BTCUSDT SELL 0.01, TP 70000,
stop 60000, stop-limit 59500) against an exchange whose take-profit
placement succeeds with id 101, whose stop-loss placement fails with API
error -2019, and whose cancellation endpoint itself always fails. -/
theorem c1_oco_rollback_witness :
    Bot.validate_order_params Bot.envOco "BTCUSDT" "SELL" ⟨1, 2⟩ (some ⟨70000, 0⟩)
        = .ok () ∧
      Bot.envOco.createOrder
          (Bot.oco_tp_request Bot.envOco "BTCUSDT" "SELL" ⟨1, 2⟩ ⟨70000, 0⟩ "GTC")
        = .ok ⟨101⟩ ∧
      Bot.envOco.createOrder
          (Bot.oco_sl_request Bot.envOco "BTCUSDT" "SELL" ⟨1, 2⟩ ⟨60000, 0⟩ ⟨59500, 0⟩ "GTC")
        = .error ⟨-2019⟩ ∧
      Bot.place_oco_order Bot.envOco "BTCUSDT" "SELL" ⟨1, 2⟩ ⟨70000, 0⟩ ⟨60000, 0⟩
          ⟨59500, 0⟩ "GTC" =
        ([.createOrder (Bot.oco_tp_request Bot.envOco "BTCUSDT" "SELL" ⟨1, 2⟩ ⟨70000, 0⟩ "GTC"),
          .createOrder
            (Bot.oco_sl_request Bot.envOco "BTCUSDT" "SELL" ⟨1, 2⟩ ⟨60000, 0⟩ ⟨59500, 0⟩ "GTC"),
          .cancelOrder "BTCUSDT" 101],
          .error (.apiError ⟨-2019⟩)) :=
  ⟨rfl, rfl, rfl,
    c1_oco_rollback Bot.envOco "BTCUSDT" "SELL" ⟨1, 2⟩ ⟨70000, 0⟩ ⟨60000, 0⟩ ⟨59500, 0⟩
      "GTC" ⟨101⟩ ⟨-2019⟩ rfl rfl rfl⟩

/-- C2 counterexample: with a non-positive stop-loss trigger price (-1) and
all other inputs valid, `place_oco_order` does NOT fail up front: both legs
are submitted to the exchange (two createOrder calls in the trace) and the
call even succeeds, contradicting the claim that an invalid stop price
prevents any order submission. -/
theorem c2_counterexample :
    (Dec.mk (-1) 0).man ≤ 0 ∧
      (Bot.place_oco_order Bot.envOk "BTCUSDT" "SELL" ⟨1, 2⟩ ⟨70000, 0⟩ ⟨-1, 0⟩
          ⟨59500, 0⟩ "GTC").1 =
        [.createOrder (Bot.oco_tp_request Bot.envOk "BTCUSDT" "SELL" ⟨1, 2⟩ ⟨70000, 0⟩ "GTC"),
          .createOrder
            (Bot.oco_sl_request Bot.envOk "BTCUSDT" "SELL" ⟨1, 2⟩ ⟨-1, 0⟩ ⟨59500, 0⟩ "GTC")] ∧
      (Bot.place_oco_order Bot.envOk "BTCUSDT" "SELL" ⟨1, 2⟩ ⟨70000, 0⟩ ⟨-1, 0⟩
          ⟨59500, 0⟩ "GTC").2 = .ok [⟨7⟩, ⟨7⟩] :=
  ⟨by decide, rfl, rfl⟩

/-- C2 (amended): only the quantity and the take-profit price are covered by
`place_oco_order`'s up-front validation: if either is non-positive the call
fails before any order submission (empty call trace), but non-positive
stop-loss trigger or stop-loss limit prices are not rejected up front. -/
theorem c2_oco_upfront_validation (env : Bot.Env) (symbol side : String)
    (quantity price stop_price stop_limit_price : Dec) (tif : String)
    (h : quantity.man ≤ 0 ∨ price.man ≤ 0) :
    Bot.place_oco_order env symbol side quantity price stop_price stop_limit_price tif =
      ([], .error .valueError) := by
  have hv : Bot.validate_order_params env symbol side quantity (some price)
      = .error .valueError := by
    unfold Bot.validate_order_params
    by_cases hside : Bot.pyUpperStr side ∉ (["BUY", "SELL"] : List String)
    · rw [if_pos hside]
    · rw [if_neg hside]
      by_cases hq : quantity.man ≤ 0
      · rw [if_pos hq]
      · rw [if_neg hq]
        have hp : price.man ≤ 0 := by tauto
        show (if price.man ≤ 0 then Except.error Bot.BotError.valueError else _)
          = Except.error Bot.BotError.valueError
        rw [if_pos hp]
  unfold Bot.place_oco_order
  rw [hv]

/-- C2 witness: a zero quantity with otherwise valid inputs makes
`place_oco_order` fail with no exchange call at all. -/
theorem c2_oco_upfront_validation_witness :
    ((Dec.mk 0 0).man ≤ 0 ∨ (Dec.mk 70000 0).man ≤ 0) ∧
      Bot.place_oco_order Bot.envOk "BTCUSDT" "SELL" ⟨0, 0⟩ ⟨70000, 0⟩ ⟨60000, 0⟩
          ⟨59500, 0⟩ "GTC" =
        ([], .error .valueError) :=
  ⟨Or.inl (by decide),
    c2_oco_upfront_validation Bot.envOk "BTCUSDT" "SELL" ⟨0, 0⟩ ⟨70000, 0⟩ ⟨60000, 0⟩
      ⟨59500, 0⟩ "GTC" (Or.inl (by decide))⟩

/-- C3: price formatting truncates toward the true value from above, never
rounds up: for every positive price the formatted value is at most the raw
price, and lies within one unit in the last (`pricePrecision`-th) decimal
place; concretely 49999.999 at price precision 2 renders as "49999.99"
(not "50000.00"), and quantity 0.0009 at quantity precision 3 renders as
"0.000". -/
theorem c3_format_price_truncates :
    (∀ (env : Bot.Env) (price : Dec), 0 < price.man →
        Dec.toRat (Bot.format_price_dec env price) ≤ price.toRat ∧
          price.toRat - Dec.toRat (Bot.format_price_dec env price)
            < 1 / 10 ^ env.pricePrecision) ∧
      Bot.format_price Bot.envOco ⟨49999999, 3⟩ = "49999.99" ∧
        Bot.format_quantity Bot.envOco ⟨9, 4⟩ = "0.000" :=
  ⟨fun env price h => quantDown_le env.pricePrecision price h, by decide, by decide⟩

/-- C3 witness: the truncation bound instantiated at price 49999.999 with
price precision 2 (the environment `envOco`, whose price precision is 2). -/
theorem c3_format_price_truncates_witness :
    0 < (Dec.mk 49999999 3).man ∧
      Dec.toRat (Bot.format_price_dec Bot.envOco ⟨49999999, 3⟩)
          ≤ Dec.toRat ⟨49999999, 3⟩ ∧
        Dec.toRat ⟨49999999, 3⟩ - Dec.toRat (Bot.format_price_dec Bot.envOco ⟨49999999, 3⟩)
          < 1 / 10 ^ Bot.envOco.pricePrecision :=
  ⟨by decide, c3_format_price_truncates.1 Bot.envOco ⟨49999999, 3⟩ (by decide)⟩

/-- C4 counterexample: `format_decimal` quantizes with the decimal context's
default rounding (half-even), not truncation: formatting 0.006 to 2 places
yields 0.01, whose value strictly exceeds 0.006 — re-parsing the returned
string does not yield a value ≤ q. -/
theorem c4_counterexample :
    Validators.format_decimal ⟨6, 3⟩ 2 = ⟨1, 2⟩ ∧
      Dec.toRat ⟨6, 3⟩ < Dec.toRat (Validators.format_decimal ⟨6, 3⟩ 2) := by
  constructor
  · rfl
  · show Dec.toRat ⟨6, 3⟩ < Dec.toRat ⟨1, 2⟩
    unfold Dec.toRat
    norm_num

/-- C4 (amended): `format_decimal` rounds to nearest with ties to even
rather than truncating, so the formatted value can exceed the input, but
only ever by half a unit in the last place: the formatted value is within
`1/(2·10^p)` of the input, and the returned string still has at most `p`
decimal digits (its value is an integer multiple of `10^-p`). -/
theorem c4_format_decimal_half_even (value : Dec) (precision : ℕ) :
    |Dec.toRat (Validators.format_decimal value precision) - value.toRat|
        ≤ 1 / (2 * 10 ^ precision) ∧
      ∃ k : ℤ, Dec.toRat (Validators.format_decimal value precision)
        = (k : ℚ) / 10 ^ precision :=
  ⟨quantHalfEven_err precision value, ⟨quantHalfEven precision value, rfl⟩⟩

/-- C5 counterexample: `place_take_profit_order` accepts a non-positive
trigger price (-1) and submits the order to the exchange (one createOrder
call, successful result), contradicting the claim that it rejects a
non-positive stop price just as `place_stop_limit_order` does. -/
theorem c5_counterexample :
    (Dec.mk (-1) 0).man ≤ 0 ∧
      Bot.place_take_profit_order Bot.envOk "BTCUSDT" "SELL" ⟨1, 2⟩ ⟨70000, 0⟩
          ⟨-1, 0⟩ "GTC" =
        ([.createOrder
            (Bot.tp_request Bot.envOk "BTCUSDT" "SELL" ⟨1, 2⟩ ⟨70000, 0⟩ ⟨-1, 0⟩ "GTC")],
          .ok ⟨7⟩) :=
  ⟨by decide, rfl⟩

/-- C5 (amended): `place_stop_limit_order` does reject a non-positive
trigger price after its base validation and before any submission (empty
call trace), but `place_take_profit_order` performs no such check: whenever
its base validation passes it submits exactly one order, whatever the
trigger price. -/
theorem c5_stop_price_validation :
    (∀ (env : Bot.Env) (symbol side : String) (quantity price stop_price : Dec)
        (tif : String),
      Bot.validate_order_params env symbol side quantity (some price) = .ok () →
        stop_price.man ≤ 0 →
          Bot.place_stop_limit_order env symbol side quantity price stop_price tif =
            ([], .error .valueError)) ∧
      ∀ (env : Bot.Env) (symbol side : String) (quantity price stop_price : Dec)
          (tif : String),
        Bot.validate_order_params env symbol side quantity (some price) = .ok () →
          (Bot.place_take_profit_order env symbol side quantity price stop_price tif).1 =
            [.createOrder (Bot.tp_request env symbol side quantity price stop_price tif)] := by
  constructor
  · intro env symbol side quantity price stop_price tif hval hsp
    unfold Bot.place_stop_limit_order
    rw [hval, if_pos hsp]
  · intro env symbol side quantity price stop_price tif hval
    unfold Bot.place_take_profit_order
    rw [hval]
    cases hc : env.createOrder (Bot.tp_request env symbol side quantity price stop_price tif)
    · rfl
    · rfl

/-- C5 witness: with valid base parameters and trigger price -1, the
stop-limit placement fails locally with no exchange call, while the
take-profit placement still issues its submission. -/
theorem c5_stop_price_validation_witness :
    Bot.validate_order_params Bot.envOk "BTCUSDT" "SELL" ⟨1, 2⟩ (some ⟨70000, 0⟩)
        = .ok () ∧
      (Dec.mk (-1) 0).man ≤ 0 ∧
      Bot.place_stop_limit_order Bot.envOk "BTCUSDT" "SELL" ⟨1, 2⟩ ⟨70000, 0⟩
          ⟨-1, 0⟩ "GTC" = ([], .error .valueError) ∧
      (Bot.place_take_profit_order Bot.envOk "BTCUSDT" "SELL" ⟨1, 2⟩ ⟨70000, 0⟩
          ⟨-1, 0⟩ "GTC").1 =
        [.createOrder
          (Bot.tp_request Bot.envOk "BTCUSDT" "SELL" ⟨1, 2⟩ ⟨70000, 0⟩ ⟨-1, 0⟩ "GTC")] :=
  ⟨rfl, by decide,
    c5_stop_price_validation.1 Bot.envOk "BTCUSDT" "SELL" ⟨1, 2⟩ ⟨70000, 0⟩ ⟨-1, 0⟩
      "GTC" rfl (by decide),
    c5_stop_price_validation.2 Bot.envOk "BTCUSDT" "SELL" ⟨1, 2⟩ ⟨70000, 0⟩ ⟨-1, 0⟩
      "GTC" rfl⟩

/-- C6: for every leverage outside [1, 125], `set_leverage` fails with a
`ValueError` and issues no exchange call (empty call trace). -/
theorem c6_set_leverage_range (env : Bot.Env) (symbol : String) (leverage : ℤ)
    (h : leverage < 1 ∨ 125 < leverage) :
    Bot.set_leverage env symbol leverage = ([], .error .valueError) := by
  unfold Bot.set_leverage
  rw [if_pos (show ¬(1 ≤ leverage ∧ leverage ≤ 125) by omega)]

/-- C6 witness: leverage 126 is rejected with no exchange call. -/
theorem c6_set_leverage_range_witness :
    ((126 : ℤ) < 1 ∨ (125 : ℤ) < 126) ∧
      Bot.set_leverage Bot.envOk "BTCUSDT" 126 = ([], .error .valueError) :=
  ⟨Or.inr (by decide),
    c6_set_leverage_range Bot.envOk "BTCUSDT" 126 (Or.inr (by decide))⟩

/-- C7: `get_positions` returns exactly the entries whose position amount
is nonzero, restricted to the given symbol when one is supplied: with a
symbol it equals a single filter on (symbol matches and amount nonzero),
without one it equals the nonzero filter; and the spec's example list with
amounts 0, 0.5, -0.3 yields exactly the 0.5 and -0.3 entries. -/
theorem c7_get_positions_filter :
    (∀ (ps : List Bot.Position) (s : String),
        Bot.get_positions ps (some s) =
          ps.filter (fun p => decide (p.symbol = s) && decide (p.positionAmt.man ≠ 0))) ∧
      (∀ ps : List Bot.Position,
        Bot.get_positions ps none = ps.filter (fun p => decide (p.positionAmt.man ≠ 0))) ∧
      Bot.get_positions
          [⟨"BTCUSDT", ⟨0, 0⟩⟩, ⟨"BTCUSDT", ⟨5, 1⟩⟩, ⟨"ETHUSDT", ⟨-3, 1⟩⟩] none =
        [⟨"BTCUSDT", ⟨5, 1⟩⟩, ⟨"ETHUSDT", ⟨-3, 1⟩⟩] := by
  refine ⟨fun ps s => ?_, fun ps => rfl, rfl⟩
  unfold Bot.get_positions
  rw [List.filter_filter]
  exact List.filter_congr (fun p _ => Bool.and_comm _ _)

/-- C8: `validate_symbol` is idempotent on every accepted input: if it
accepts `x` (returning the trimmed uppercased symbol `s`), then running it
again on its own output returns the same result. -/
theorem c8_validate_symbol_idem (x s : List ℕ)
    (h : Validators.validate_symbol x = .ok s) :
    Validators.validate_symbol s = Validators.validate_symbol x := by
  rw [h]
  unfold Validators.validate_symbol at h
  by_cases hx : x = []
  · rw [if_pos hx] at h
    simp at h
  rw [if_neg hx] at h
  by_cases hlen : (Validators.upper (Validators.strip x)).length < 5
  · rw [if_pos hlen] at h
    simp at h
  rw [if_neg hlen] at h
  by_cases hsuf : Validators.endsWithAny (Validators.upper (Validators.strip x)) = true
  · rw [if_pos hsuf] at h
    injection h with h
    subst h
    have hstrip : Validators.strip (Validators.upper (Validators.strip x))
        = Validators.upper (Validators.strip x) := Validators.strip_upper_strip x
    have hupper : Validators.upper
          (Validators.strip (Validators.upper (Validators.strip x)))
        = Validators.upper (Validators.strip x) := by
      rw [hstrip]
      exact Validators.upper_idem (Validators.strip x)
    have hne : Validators.upper (Validators.strip x) ≠ [] := by
      intro h0
      rw [h0] at hlen
      simp at hlen
    unfold Validators.validate_symbol
    rw [if_neg hne, hupper, if_neg hlen, if_pos hsuf]
  · rw [if_neg hsuf] at h
    simp at h

/-- C8 witness: the lowercase symbol "btcusdt" is accepted as "BTCUSDT",
and validating that output again gives the same result. -/
theorem c8_validate_symbol_idem_witness :
    Validators.validate_symbol [98, 116, 99, 117, 115, 100, 116]
        = .ok [66, 84, 67, 85, 83, 68, 84] ∧
      Validators.validate_symbol [66, 84, 67, 85, 83, 68, 84]
        = Validators.validate_symbol [98, 116, 99, 117, 115, 100, 116] :=
  ⟨rfl, c8_validate_symbol_idem [98, 116, 99, 117, 115, 100, 116]
    [66, 84, 67, 85, 83, 68, 84] rfl⟩

/-- C9: `validate_quantity` accepts NaN — under IEEE comparison NaN is
neither ≤ 0 nor below the minimum quantity, so the validator returns NaN
instead of raising; `validate_price` behaves the same way; and the returned
NaN is indeed not strictly positive (0 < NaN is false), so a non-raising
run does not guarantee a positive result. -/
theorem c9_validators_accept_nan :
    Validators.validate_quantity .nan (.num 0) = .ok .nan ∧
      Validators.validate_price .nan = .ok .nan ∧
        Validators.PyFloat.lt (.num 0) .nan = false :=
  ⟨rfl, rfl, rfl⟩

/-- C10: in every attempted OCO placement, any take-profit leg submitted
carries identical `price` and `stopPrice` fields — both the formatted
take-profit price — while any stop-loss leg submitted carries the
independently formatted stop-limit price as `price` and stop trigger as
`stopPrice`. -/
theorem c10_oco_tp_trigger_eq_price (env : Bot.Env) (symbol side : String)
    (quantity price stop_price stop_limit_price : Dec) (tif : String)
    (req : Bot.OrderReq)
    (hmem : Bot.ApiCall.createOrder req ∈
      (Bot.place_oco_order env symbol side quantity price stop_price stop_limit_price
        tif).1) :
    (req.type = .takeProfit →
        req.price = some (Bot.format_price env price) ∧
          req.stopPrice = some (Bot.format_price env price)) ∧
      (req.type = .stop →
        req.price = some (Bot.format_price env stop_limit_price) ∧
          req.stopPrice = some (Bot.format_price env stop_price)) := by
  unfold Bot.place_oco_order at hmem
  cases hval : Bot.validate_order_params env symbol side quantity (some price) with
  | error e =>
    rw [hval] at hmem
    simp at hmem
  | ok u =>
    rw [hval] at hmem
    cases htp : env.createOrder (Bot.oco_tp_request env symbol side quantity price tif) with
    | error e =>
      rw [htp] at hmem
      simp at hmem
      subst hmem
      refine ⟨fun _ => ⟨rfl, rfl⟩, fun hty => ?_⟩
      simp [Bot.oco_tp_request] at hty
    | ok tp =>
      rw [htp] at hmem
      cases hsl : env.createOrder
          (Bot.oco_sl_request env symbol side quantity stop_price stop_limit_price tif) with
      | error e =>
        rw [hsl] at hmem
        simp at hmem
        rcases hmem with h | h
        · subst h
          refine ⟨fun _ => ⟨rfl, rfl⟩, fun hty => ?_⟩
          simp [Bot.oco_tp_request] at hty
        · subst h
          refine ⟨fun hty => ?_, fun _ => ⟨rfl, rfl⟩⟩
          simp [Bot.oco_sl_request] at hty
      | ok sl =>
        rw [hsl] at hmem
        simp at hmem
        rcases hmem with h | h
        · subst h
          refine ⟨fun _ => ⟨rfl, rfl⟩, fun hty => ?_⟩
          simp [Bot.oco_tp_request] at hty
        · subst h
          refine ⟨fun hty => ?_, fun _ => ⟨rfl, rfl⟩⟩
          simp [Bot.oco_sl_request] at hty

/-- C10 witness: in the concrete OCO scenario the take-profit request is in
the call trace, and its price and stop price fields agree. -/
theorem c10_oco_tp_trigger_eq_price_witness :
    Bot.ApiCall.createOrder
        (Bot.oco_tp_request Bot.envOco "BTCUSDT" "SELL" ⟨1, 2⟩ ⟨70000, 0⟩ "GTC") ∈
      (Bot.place_oco_order Bot.envOco "BTCUSDT" "SELL" ⟨1, 2⟩ ⟨70000, 0⟩ ⟨60000, 0⟩
        ⟨59500, 0⟩ "GTC").1 ∧
      (((Bot.oco_tp_request Bot.envOco "BTCUSDT" "SELL" ⟨1, 2⟩ ⟨70000, 0⟩ "GTC").type
            = .takeProfit →
          (Bot.oco_tp_request Bot.envOco "BTCUSDT" "SELL" ⟨1, 2⟩ ⟨70000, 0⟩ "GTC").price
              = some (Bot.format_price Bot.envOco ⟨70000, 0⟩) ∧
            (Bot.oco_tp_request Bot.envOco "BTCUSDT" "SELL" ⟨1, 2⟩ ⟨70000, 0⟩ "GTC").stopPrice
              = some (Bot.format_price Bot.envOco ⟨70000, 0⟩)) ∧
        ((Bot.oco_tp_request Bot.envOco "BTCUSDT" "SELL" ⟨1, 2⟩ ⟨70000, 0⟩ "GTC").type
            = .stop →
          (Bot.oco_tp_request Bot.envOco "BTCUSDT" "SELL" ⟨1, 2⟩ ⟨70000, 0⟩ "GTC").price
              = some (Bot.format_price Bot.envOco ⟨59500, 0⟩) ∧
            (Bot.oco_tp_request Bot.envOco "BTCUSDT" "SELL" ⟨1, 2⟩ ⟨70000, 0⟩ "GTC").stopPrice
              = some (Bot.format_price Bot.envOco ⟨60000, 0⟩))) :=
  ⟨by decide,
    c10_oco_tp_trigger_eq_price Bot.envOco "BTCUSDT" "SELL" ⟨1, 2⟩ ⟨70000, 0⟩
      ⟨60000, 0⟩ ⟨59500, 0⟩ "GTC"
      (Bot.oco_tp_request Bot.envOco "BTCUSDT" "SELL" ⟨1, 2⟩ ⟨70000, 0⟩ "GTC")
      (by decide)⟩

end PrimeTrade
